import Mathlib

/-!
Verification of the upsert package: schema introspection, SQL statement
synthesis, and the update-then-insert orchestration. The package exists in
two versions: the primary source (namespace `upsert`) whose column lists are
plain column-name strings, and a later variant (namespace `upsertV2`) whose
column lists carry a column specification (name plus value expression) and
which adds a SELECT builder. Both are embedded here from the source.
-/

/-- Char-wise lowercasing of a string, modelling strings.ToLower on the ASCII
identifiers the package lowercases (Go field names). -/
def strToLower (s : String) : String := ⟨s.data.map Char.toLower⟩

/-- hasPrefixChars sub s is true when sub is a prefix of s. -/
def hasPrefixChars : List Char → List Char → Bool
  | [], _ => true
  | _ :: _, [] => false
  | a :: as, b :: bs => a == b && hasPrefixChars as bs

/-- containsChars sub s is true when sub occurs contiguously inside s. -/
def containsChars (sub : List Char) : List Char → Bool
  | [] => sub.isEmpty
  | c :: rest => hasPrefixChars sub (c :: rest) || containsChars sub rest

/-- Models Go strings.Contains s sub: substring containment, true when sub
is empty. -/
def strContains (s sub : String) : Bool := containsChars sub.data s.data

/-- The struct tag of one Go struct field, restricted to the three keys the
package reads. reflect.StructTag.Get yields "" for an absent key, so an
absent tag is the empty string. -/
structure StructTag where
  db : String
  upsert : String
  upsertValue : String
deriving DecidableEq

/-- Models reflect.StructTag.Get for the keys the package uses. -/
def tagGet (t : StructTag) (key : String) : String :=
  if key = "db" then t.db
  else if key = "upsert" then t.upsert
  else if key = "upsert_value" then t.upsertValue
  else ""

/-- One field of a Go struct type: its identifier and its struct tag. -/
structure GoField where
  name : String
  tag : StructTag
deriving DecidableEq

/-- The reflect.Kind shape of a Go type as far as the package inspects it:
a pointer to another type, a struct with its ordered field list, or any
other kind. -/
inductive GoType where
  | ptr (elem : GoType)
  | structOf (fields : List GoField)
  | scalar
deriving DecidableEq

/-- One dereference step, modelling
if ut.Kind() == reflect.Ptr \x7b ut = ut.Elem() \x7d. -/
def derefOnce : GoType → GoType
  | .ptr e => e
  | t => t

/-- Whether a type's kind is reflect.Struct. -/
def GoType.isStruct : GoType → Bool
  | .structOf _ => true
  | _ => false

/-- An Upserter value as the package sees it: the result of its Table()
method and its runtime type (what reflect.TypeOf exposes). -/
structure Upserter where
  table : String
  type : GoType
deriving DecidableEq

namespace upsert

/-- dbTagOrLower returns either the value of the "db" struct tag for this
field or, if that does not exist, a lowercase version of the field name. -/
def dbTagOrLower (name : String) (tag : StructTag) : String :=
  let dbTag := tagGet tag "db"
  if dbTag.length > 0 then dbTag else strToLower name

/-- The field loop of updateColumns: include any column whose upsert tag
does not contain "omit". -/
def updateColumnsFields : List GoField → List String
  | [] => []
  | f :: rest =>
    if strContains (tagGet f.tag "upsert") "omit" then updateColumnsFields rest
    else dbTagOrLower f.name f.tag :: updateColumnsFields rest

/-- updateColumns returns the fields that are read from the struct and set
on upserting in the db: one pointer dereference, nothing for a non-struct
kind, else the loop over the fields. -/
def updateColumns (u : Upserter) : List String :=
  match derefOnce u.type with
  | .structOf fields => updateColumnsFields fields
  | _ => []

/-- The field loop of uniqueKeyColumns: include any column whose upsert tag
contains "key". -/
def uniqueKeyColumnsFields : List GoField → List String
  | [] => []
  | f :: rest =>
    if strContains (tagGet f.tag "upsert") "key" then
      dbTagOrLower f.name f.tag :: uniqueKeyColumnsFields rest
    else uniqueKeyColumnsFields rest

/-- uniqueKeyColumns returns the fields of the struct that together are
naturally unique, used in the where clause. -/
def uniqueKeyColumns (u : Upserter) : List String :=
  match derefOnce u.type with
  | .structOf fields => uniqueKeyColumnsFields fields
  | _ => []

/-- The loop body of set: each column renders as "col" = :col, with a comma
written after every element except the last. -/
def setBody : List String → String
  | [] => ""
  | [c] => "\"" ++ c ++ "\" = :" ++ c
  | c :: rest => "\"" ++ c ++ "\" = :" ++ c ++ "," ++ setBody rest

/-- set renders the SET fragment over the update columns. -/
def set (u : Upserter) : String := "SET " ++ setBody (updateColumns u)

/-- The column-name list of values: quoted names, comma after every element
except the last. -/
def valuesNames : List String → String
  | [] => ""
  | [c] => "\"" ++ c ++ "\""
  | c :: rest => "\"" ++ c ++ "\"" ++ "," ++ valuesNames rest

/-- The placeholder list of values: :col, comma after every element except
the last. -/
def valuesExprs : List String → String
  | [] => ""
  | [c] => ":" ++ c
  | c :: rest => ":" ++ c ++ "," ++ valuesExprs rest

/-- values renders the VALUES fragment over the update columns. -/
def values (u : Upserter) : String :=
  "(" ++ valuesNames (updateColumns u) ++ ")VALUES (" ++ valuesExprs (updateColumns u) ++ ")"

/-- The loop body of where: col = :col joined by " AND " (key column names
are not quoted here). -/
def whereBody : List String → String
  | [] => ""
  | [c] => c ++ " = :" ++ c
  | c :: rest => c ++ " = :" ++ c ++ " AND " ++ whereBody rest

/-- The where clause over the unique key columns. Named whereClause because
the source's name is a reserved word here. -/
def whereClause (u : Upserter) : String := "WHERE " ++ whereBody (uniqueKeyColumns u)

/-- updateSQL returns a full SQL command to update this Upserter. -/
def updateSQL (u : Upserter) : String :=
  "UPDATE \"" ++ u.table ++ "\" " ++ set u ++ " " ++ whereClause u ++ " RETURNING *"

/-- insertSQL returns a full SQL command to insert this Upserter. -/
def insertSQL (u : Upserter) : String :=
  "INSERT INTO \"" ++ u.table ++ "\" " ++ values u ++ " RETURNING *"

/-- The DELETE statement text built inside Delete. -/
def deleteSQL (u : Upserter) : String :=
  "DELETE FROM \"" ++ u.table ++ "\" " ++ whereClause u

end upsert

namespace upsertV2

/-- Column specification of the variant source: column name plus value
expression. -/
structure columnSpec where
  name : String
  value : String
deriving DecidableEq

/-- newColumnSpec of the variant source: the name is the "db" tag when
non-empty, else the lowercased field name; the value is the "upsert_value"
tag when non-empty, else ":" followed by the name. -/
def newColumnSpec (fieldName : String) (tag : StructTag) : columnSpec :=
  let name := if (tagGet tag "db").length > 0 then tagGet tag "db" else strToLower fieldName
  let value := if (tagGet tag "upsert_value").length > 0 then tagGet tag "upsert_value"
    else ":" ++ name
  { name := name, value := value }

/-- The field loop of the variant's uniqueKeyColumns. -/
def uniqueKeyColumnsFields : List GoField → List columnSpec
  | [] => []
  | f :: rest =>
    if strContains (tagGet f.tag "upsert") "key" then
      newColumnSpec f.name f.tag :: uniqueKeyColumnsFields rest
    else uniqueKeyColumnsFields rest

/-- The variant's uniqueKeyColumns over column specifications. -/
def uniqueKeyColumns (u : Upserter) : List columnSpec :=
  match derefOnce u.type with
  | .structOf fields => uniqueKeyColumnsFields fields
  | _ => []

/-- The loop body of the variant's where: name = value joined by " AND ". -/
def whereBody : List columnSpec → String
  | [] => ""
  | [c] => c.name ++ " = " ++ c.value
  | c :: rest => c.name ++ " = " ++ c.value ++ " AND " ++ whereBody rest

/-- The variant's where clause over the unique key columns. -/
def whereClause (u : Upserter) : String := "WHERE " ++ whereBody (uniqueKeyColumns u)

/-- getSQL of the variant source: the table name is interpolated with %s,
without surrounding double quotes. -/
def getSQL (u : Upserter) : String :=
  "SELECT * FROM " ++ u.table ++ " " ++ whereClause u

/-- Modelled from the spec: the SELECT text the spec claims, with the table
identifier delimited by double quotes as in the other statements. Stated
only for comparison against getSQL. -/
def getSQLSpec (u : Upserter) : String :=
  "SELECT * FROM \"" ++ u.table ++ "\" " ++ whereClause u

end upsertV2

/-- The error values the package can return: the ErrNoIDReturned sentinel,
an error surfaced by statement execution, or an error from scanning a
returned row into the record. -/
inductive GoError where
  | noIDReturned
  | execError (msg : String)
  | scanError (msg : String)
deriving DecidableEq

/-- The observable outcome of one sqlx.NamedQuery call together with the
scan of its first row: the statement may fail, may return no rows, or may
return a first row that scans into the record either as a new record value
or with a scan error. -/
inductive ExecResult (R : Type) where
  | execErr (msg : String)
  | noRows
  | row (scanned : Except String R)

/-- The executor as the orchestration sees it: the response it gives to the
update statement and the response it gives to the insert statement. -/
structure Executor (R : Type) where
  onUpdate : ExecResult R
  onInsert : ExecResult R

/-- What a plain Upsert call did: the final record value, the returned
inserted flag and error, the write statements it sent in order, and whether
the insert statement was attempted. -/
structure UpsertTrace (R : Type) where
  record : R
  inserted : Bool
  err : Option GoError
  statements : List String
  insertAttempted : Bool

/-- Commit or rollback of the opened transaction. -/
inductive TxAction where
  | commit
  | rollback
deriving DecidableEq

/-- What an UpsertTx call did: the plain trace data plus the transaction
actions performed by the deferred commit/rollback, in order. -/
structure TxTrace (R : Type) where
  record : R
  inserted : Bool
  err : Option GoError
  statements : List String
  insertAttempted : Bool
  txActions : List TxAction

/-- The executor response to a DELETE statement: an affected-row count and
an optional execution error, as sqlx.NamedExec returns. -/
structure ExecOutcome where
  rowsAffected : Nat
  execErr : Option String

namespace upsert

/-- Update tries the UPDATE statement: an execution error propagates; a
returned row is scanned into the record (a scan error propagates); no rows
returns ErrNoIDReturned. -/
def Update {R : Type} (res : ExecResult R) (u : R) : R × Option GoError :=
  match res with
  | .execErr m => (u, some (GoError.execError m))
  | .noRows => (u, some GoError.noIDReturned)
  | .row (.ok r) => (r, none)
  | .row (.error m) => (u, some (GoError.scanError m))

/-- Insert tries the INSERT statement, with the same result handling as
Update: no rows also returns ErrNoIDReturned. -/
def Insert {R : Type} (res : ExecResult R) (u : R) : R × Option GoError :=
  match res with
  | .execErr m => (u, some (GoError.execError m))
  | .noRows => (u, some GoError.noIDReturned)
  | .row (.ok r) => (r, none)
  | .row (.error m) => (u, some (GoError.scanError m))

/-- Upsert tries Update and returns immediately when it succeeded; on any
non-nil error from Update it tries Insert, whose result decides the call. -/
def Upsert {R : Type} (ex : Executor R) (meta : Upserter) (u : R) : UpsertTrace R :=
  match Update ex.onUpdate u with
  | (u1, none) =>
    { record := u1, inserted := false, err := none,
      statements := [updateSQL meta], insertAttempted := false }
  | (u1, some _) =>
    match Insert ex.onInsert u1 with
    | (u2, none) =>
      { record := u2, inserted := true, err := none,
        statements := [updateSQL meta, insertSQL meta], insertAttempted := true }
    | (u2, some e) =>
      { record := u2, inserted := false, err := some e,
        statements := [updateSQL meta, insertSQL meta], insertAttempted := true }

/-- UpsertTx opens a transaction and registers a deferred handler that rolls
back when the final err is non-nil and commits when it is nil; it returns
right away on any Update error other than ErrNoIDReturned, and otherwise
tries Insert. The deferred commit or rollback runs before the error is
handed to the caller; the txActions list records what it did. -/
def UpsertTx {R : Type} (beginErr : Option String) (ex : Executor R) (meta : Upserter)
    (u : R) : TxTrace R :=
  match beginErr with
  | some m =>
    { record := u, inserted := false, err := some (GoError.execError m),
      statements := [], insertAttempted := false, txActions := [] }
  | none =>
    match Update ex.onUpdate u with
    | (u1, none) =>
      { record := u1, inserted := false, err := none,
        statements := [updateSQL meta], insertAttempted := false,
        txActions := [TxAction.commit] }
    | (u1, some e) =>
      if e = GoError.noIDReturned then
        match Insert ex.onInsert u1 with
        | (u2, none) =>
          { record := u2, inserted := true, err := none,
            statements := [updateSQL meta, insertSQL meta], insertAttempted := true,
            txActions := [TxAction.commit] }
        | (u2, some e2) =>
          { record := u2, inserted := false, err := some e2,
            statements := [updateSQL meta, insertSQL meta], insertAttempted := true,
            txActions := [TxAction.rollback] }
      else
        { record := u1, inserted := false, err := some e,
          statements := [updateSQL meta], insertAttempted := false,
          txActions := [TxAction.rollback] }

/-- Delete runs the generated DELETE through NamedExec, discards the result
value (the affected-row count) and returns only the execution error. -/
def Delete (res : ExecOutcome) (meta : Upserter) : List String × Option GoError :=
  ([deleteSQL meta],
   match res.execErr with
   | some m => some (GoError.execError m)
   | none => none)

end upsert

/-- A struct tag with none of the three keys present. -/
def noTag : StructTag := ⟨"", "", ""⟩

/-- A struct tag whose upsert key is exactly "key". -/
def keyTag : StructTag := ⟨"", "key", ""⟩

/-- A field named Id tagged upsert: key. -/
def keyField : GoField := ⟨"Id", keyTag⟩

/-- An Upserter whose struct has a single key-tagged field. -/
def keyOnlyU : Upserter := ⟨"t", .structOf [keyField]⟩

/-- An Upserter whose runtime type is not a struct (for example an int). -/
def intU : Upserter := ⟨"t", .scalar⟩

/-- An Upserter over a struct with two untagged fields A and B. -/
def abU : Upserter := ⟨"t", .structOf [⟨"A", noTag⟩, ⟨"B", noTag⟩]⟩

/-- An Upserter over a struct with no fields at all. -/
def emptyU : Upserter := ⟨"t", .structOf []⟩

/-- An Upserter for table hello with a key field Id and a writable field
Name, as in the test schema. -/
def helloU : Upserter := ⟨"hello", .structOf [⟨"Id", keyTag⟩, ⟨"Name", noTag⟩]⟩

/-- An executor whose update statement fails with an execution error and
whose insert statement succeeds, returning a row. -/
def execFailEx : Executor Nat := ⟨.execErr "connection refused", .row (.ok 7)⟩

/-- An executor for a first call on an empty table: the update matches no
row and the insert returns the created row. -/
def firstCallEx : Executor Nat := ⟨.noRows, .row (.ok 1)⟩

/-- An executor for a second call with identical values: the update matches
the existing row and returns it unchanged. -/
def secondCallEx : Executor Nat := ⟨.row (.ok 1), .noRows⟩

/-- C1 counterexample: a field tagged upsert: key is not excluded from the
writable-column list. updateColumns includes every field whose tag does not
contain "omit", so the key-tagged field Id appears in the SET/VALUES column
list and in the key-column list at the same time, contradicting the claim
that each field has exactly one role and that a Key field is excluded from
the writable list. -/
theorem keyTag_in_both_lists :
    upsert.updateColumns keyOnlyU = ["id"] ∧ upsert.uniqueKeyColumns keyOnlyU = ["id"] := by
  decide

/-- C1 amended: membership in the two column lists is decided by two
independent substring tests, not by a single exclusive role. The
writable-column list holds exactly the fields whose upsert tag does not
contain "omit" (key-tagged fields included), and the key-column list holds
exactly the fields whose upsert tag contains "key" (even when it also
contains "omit"); both lists are in field declaration order and map each
field through dbTagOrLower. -/
theorem columns_membership_amended (table : String) (fs : List GoField) :
    upsert.updateColumns ⟨table, .structOf fs⟩ =
      (fs.filter (fun f => !(strContains (tagGet f.tag "upsert") "omit"))).map
        (fun f => upsert.dbTagOrLower f.name f.tag)
    ∧ upsert.uniqueKeyColumns ⟨table, .structOf fs⟩ =
      (fs.filter (fun f => strContains (tagGet f.tag "upsert") "key")).map
        (fun f => upsert.dbTagOrLower f.name f.tag) := by
  constructor
  · show upsert.updateColumnsFields fs = _
    induction fs with
    | nil => rfl
    | cons f rest ih =>
      by_cases h : strContains (tagGet f.tag "upsert") "omit"
      · simp [upsert.updateColumnsFields, h, List.filter_cons, ih]
      · simp [upsert.updateColumnsFields, h, List.filter_cons, ih]
  · show upsert.uniqueKeyColumnsFields fs = _
    induction fs with
    | nil => rfl
    | cons f rest ih =>
      by_cases h : strContains (tagGet f.tag "upsert") "key"
      · simp [upsert.uniqueKeyColumnsFields, h, List.filter_cons, ih]
      · simp [upsert.uniqueKeyColumnsFields, h, List.filter_cons, ih]

/-- C5 counterexample: for a record whose type is not a struct, schema
introspection does not fail with any error — the column functions have no
error result at all — it returns the empty classification for both lists,
contradicting the claim that introspection fails with UnsupportedType
rather than returning a possibly empty classification. -/
theorem nonstruct_empty_columns :
    upsert.updateColumns intU = [] ∧ upsert.uniqueKeyColumns intU = [] := by
  decide

/-- C5 amended: for every record whose type, after one pointer dereference,
is not a struct, both column lists are empty and no error is produced (the
introspection functions are total and have no error channel). -/
theorem nonstruct_returns_empty (u : Upserter) (h : (derefOnce u.type).isStruct = false) :
    upsert.updateColumns u = [] ∧ upsert.uniqueKeyColumns u = [] := by
  unfold upsert.updateColumns upsert.uniqueKeyColumns
  cases hd : derefOnce u.type with
  | structOf fields => rw [hd] at h; simp [GoType.isStruct] at h
  | ptr e => exact ⟨rfl, rfl⟩
  | scalar => exact ⟨rfl, rfl⟩

/-- C5 witness: the non-struct record intU satisfies the hypothesis and
gets empty column lists. -/
theorem nonstruct_returns_empty_witness :
    (derefOnce intU.type).isStruct = false
    ∧ (upsert.updateColumns intU = [] ∧ upsert.uniqueKeyColumns intU = []) :=
  ⟨by decide, nonstruct_returns_empty intU (by decide)⟩

/-- C10: presenting the record as a pointer to a struct or as the struct
itself yields identical writable and key column lists, hence identical
statement text everywhere: column derivation dereferences a pointer exactly
once before walking the fields. -/
theorem ptr_deref_same_columns (table : String) (fs : List GoField) :
    upsert.updateColumns ⟨table, .ptr (.structOf fs)⟩ = upsert.updateColumns ⟨table, .structOf fs⟩
    ∧ upsert.uniqueKeyColumns ⟨table, .ptr (.structOf fs)⟩ =
      upsert.uniqueKeyColumns ⟨table, .structOf fs⟩
    ∧ upsert.set ⟨table, .ptr (.structOf fs)⟩ = upsert.set ⟨table, .structOf fs⟩
    ∧ upsert.values ⟨table, .ptr (.structOf fs)⟩ = upsert.values ⟨table, .structOf fs⟩
    ∧ upsert.whereClause ⟨table, .ptr (.structOf fs)⟩ = upsert.whereClause ⟨table, .structOf fs⟩
    ∧ upsert.updateSQL ⟨table, .ptr (.structOf fs)⟩ = upsert.updateSQL ⟨table, .structOf fs⟩
    ∧ upsert.insertSQL ⟨table, .ptr (.structOf fs)⟩ = upsert.insertSQL ⟨table, .structOf fs⟩
    ∧ upsert.deleteSQL ⟨table, .ptr (.structOf fs)⟩ = upsert.deleteSQL ⟨table, .structOf fs⟩
    ∧ upsertV2.getSQL ⟨table, .ptr (.structOf fs)⟩ = upsertV2.getSQL ⟨table, .structOf fs⟩ :=
  ⟨rfl, rfl, rfl, rfl, rfl, rfl, rfl, rfl, rfl⟩

/-- Helper: a string has positive length exactly when it is non-empty. -/
theorem strLength_pos_iff (s : String) : 0 < s.length ↔ s ≠ "" := by
  cases s with
  | mk data =>
    simp [String.length, String.ext_iff]
    exact List.length_pos

/-- Helper: the propositional-equality form of strLength_pos_iff, for
rewriting if-conditions. -/
theorem strLength_pos_eq (s : String) : (0 < s.length) = (s ≠ "") :=
  propext (strLength_pos_iff s)

/-- Helper: the accumulator of the intercalate loop factors out on the
left. -/
theorem intercalate_go_eq (s : String) (l : List String) :
    ∀ acc₁ acc₂ : String,
      String.intercalate.go (acc₁ ++ acc₂) s l = acc₁ ++ String.intercalate.go acc₂ s l := by
  induction l with
  | nil => intro acc₁ acc₂; rfl
  | cons a as ih =>
    intro acc₁ acc₂
    show String.intercalate.go (acc₁ ++ acc₂ ++ s ++ a) s as
      = acc₁ ++ String.intercalate.go (acc₂ ++ s ++ a) s as
    rw [String.append_assoc acc₁ acc₂ s, String.append_assoc acc₁ (acc₂ ++ s) a]
    exact ih acc₁ (acc₂ ++ s ++ a)

/-- Helper: intercalate on a list of at least two elements peels off the
head and one separator. -/
theorem intercalate_cons_cons (s a b : String) (l : List String) :
    String.intercalate s (a :: b :: l) = a ++ s ++ String.intercalate s (b :: l) := by
  show String.intercalate.go a s (b :: l) = a ++ s ++ String.intercalate.go b s l
  show String.intercalate.go (a ++ s ++ b) s l = a ++ s ++ String.intercalate.go b s l
  exact intercalate_go_eq s l (a ++ s) b

/-- Helper: the set loop renders its list comma-joined with no trailing
comma. -/
theorem setBody_eq_intercalate (l : List String) :
    upsert.setBody l
      = String.intercalate "," (l.map fun c => "\"" ++ c ++ "\" = :" ++ c) := by
  induction l with
  | nil => rfl
  | cons c rest ih =>
    cases rest with
    | nil => rfl
    | cons d rest2 =>
      rw [List.map_cons, List.map_cons, intercalate_cons_cons]
      rw [List.map_cons] at ih
      rw [← ih]
      rfl

/-- Helper: the values column-name loop renders its list comma-joined. -/
theorem valuesNames_eq_intercalate (l : List String) :
    upsert.valuesNames l = String.intercalate "," (l.map fun c => "\"" ++ c ++ "\"") := by
  induction l with
  | nil => rfl
  | cons c rest ih =>
    cases rest with
    | nil => rfl
    | cons d rest2 =>
      rw [List.map_cons, List.map_cons, intercalate_cons_cons]
      rw [List.map_cons] at ih
      rw [← ih]
      rfl

/-- Helper: the values placeholder loop renders its list comma-joined. -/
theorem valuesExprs_eq_intercalate (l : List String) :
    upsert.valuesExprs l = String.intercalate "," (l.map fun c => ":" ++ c) := by
  induction l with
  | nil => rfl
  | cons c rest ih =>
    cases rest with
    | nil => rfl
    | cons d rest2 =>
      rw [List.map_cons, List.map_cons, intercalate_cons_cons]
      rw [List.map_cons] at ih
      rw [← ih]
      rfl

/-- C6 counterexample: on a record with two writable columns a and b, the
rendered SET fragment has no space after the comma, and the rendered VALUES
fragment has no space between the column list and the VALUES keyword and no
space after the comma between placeholders, so neither matches the exactly
claimed text. -/
theorem set_values_spacing :
    upsert.set abU = "SET \"a\" = :a,\"b\" = :b"
    ∧ upsert.set abU ≠ "SET \"a\" = :a, \"b\" = :b"
    ∧ upsert.values abU = "(\"a\",\"b\")VALUES (:a,:b)"
    ∧ upsert.values abU ≠ "(\"a\",\"b\") VALUES (:a, :b)" := by
  decide

/-- C6 amended: the SET fragment is SET followed by the writable columns
rendered as "col" = :col and joined by a bare comma (no space, no trailing
comma), and the VALUES fragment is the quoted writable column names joined
by a bare comma in the same order, then )VALUES ( with no space before
VALUES, then the placeholders joined by a bare comma; with zero writable
columns the rendered text is SET with a trailing space and ()VALUES (). -/
theorem set_values_join_format (u : Upserter) :
    upsert.set u
      = "SET " ++ String.intercalate ","
          ((upsert.updateColumns u).map fun c => "\"" ++ c ++ "\" = :" ++ c)
    ∧ upsert.values u
      = "(" ++ String.intercalate "," ((upsert.updateColumns u).map fun c => "\"" ++ c ++ "\"")
        ++ ")VALUES ("
        ++ String.intercalate "," ((upsert.updateColumns u).map fun c => ":" ++ c) ++ ")"
    ∧ upsert.set emptyU = "SET "
    ∧ upsert.values emptyU = "()VALUES ()" := by
  refine ⟨?_, ?_, rfl, rfl⟩
  · rw [upsert.set, setBody_eq_intercalate]
  · rw [upsert.values, valuesNames_eq_intercalate, valuesExprs_eq_intercalate]

/-- C7: the derived column name is the db tag when that is non-empty and
otherwise the lowercased field identifier; the derived value expression is
the upsert_value tag when that is non-empty and otherwise a colon followed
by the column name; and the primary source's dbTagOrLower agrees with the
variant's name derivation. -/
theorem newColumnSpec_defaults (fieldName : String) (tag : StructTag) :
    ((upsertV2.newColumnSpec fieldName tag).name
      = if tagGet tag "db" ≠ "" then tagGet tag "db" else strToLower fieldName)
    ∧ ((upsertV2.newColumnSpec fieldName tag).value
      = if tagGet tag "upsert_value" ≠ "" then tagGet tag "upsert_value"
        else ":" ++ (upsertV2.newColumnSpec fieldName tag).name)
    ∧ upsert.dbTagOrLower fieldName tag = (upsertV2.newColumnSpec fieldName tag).name := by
  simp only [upsertV2.newColumnSpec, upsert.dbTagOrLower, strLength_pos_eq]
  simp

/-- C8 counterexample: on the hello table with key column id, the generated
SELECT text does not put double quotes around the table identifier, so it
differs from the claimed quoted form. -/
theorem getSQL_unquoted_table :
    upsertV2.getSQL helloU = "SELECT * FROM hello WHERE id = :id"
    ∧ upsertV2.getSQL helloU ≠ "SELECT * FROM \"hello\" WHERE id = :id" := by
  decide

/-- C8 amended: the generated SELECT statement interpolates the table name
without double quotes, so for every record it differs from the spec's
quoted form, while the DELETE, UPDATE and INSERT statements do delimit the
table identifier with double quotes. -/
theorem getSQL_format_amended (u : Upserter) :
    upsertV2.getSQL u = "SELECT * FROM " ++ u.table ++ " " ++ upsertV2.whereClause u
    ∧ upsertV2.getSQL u ≠ upsertV2.getSQLSpec u
    ∧ upsert.deleteSQL u = "DELETE FROM \"" ++ u.table ++ "\" " ++ upsert.whereClause u
    ∧ upsert.updateSQL u
      = "UPDATE \"" ++ u.table ++ "\" " ++ upsert.set u ++ " " ++ upsert.whereClause u
        ++ " RETURNING *"
    ∧ upsert.insertSQL u
      = "INSERT INTO \"" ++ u.table ++ "\" " ++ upsert.values u ++ " RETURNING *" := by
  refine ⟨rfl, ?_, rfl, rfl, rfl⟩
  intro h
  have hl := congrArg String.length h
  rw [upsertV2.getSQL, upsertV2.getSQLSpec] at hl
  simp only [String.length_append] at hl
  have e1 : ("SELECT * FROM " : String).length = 14 := rfl
  have e2 : ("SELECT * FROM \"" : String).length = 15 := rfl
  have e3 : (" " : String).length = 1 := rfl
  have e4 : ("\" " : String).length = 2 := rfl
  rw [e1, e2, e3, e4] at hl
  omega

/-- C2 counterexample: when the update statement itself fails with an
execution error, Upsert does not propagate that error immediately: it
attempts the insert statement, and when the insert succeeds the call
returns a nil error, swallowing the execution error entirely. -/
theorem upsert_insert_after_exec_error :
    (upsert.Upsert execFailEx helloU (0 : Nat)).insertAttempted = true
    ∧ (upsert.Upsert execFailEx helloU (0 : Nat)).err = none
    ∧ (upsert.Upsert execFailEx helloU (0 : Nat)).statements
      = [upsert.updateSQL helloU, upsert.insertSQL helloU] := by
  decide

/-- C2 amended: Upsert skips the insert exactly when the update succeeded
with a nil error; on any non-nil update error, including an execution
error, it attempts the insert, and the call's error is then the insert's
error (the update's error is never propagated). -/
theorem upsert_fallback_on_any_error {R : Type} (ex : Executor R) (meta : Upserter) (u : R) :
    (upsert.Upsert ex meta u).insertAttempted = !(upsert.Update ex.onUpdate u).2.isNone
    ∧ (upsert.Upsert ex meta u).err
      = (if (upsert.Update ex.onUpdate u).2.isNone then none
         else (upsert.Insert ex.onInsert (upsert.Update ex.onUpdate u).1).2)
    ∧ (upsert.Upsert ex meta u).inserted
      = (!(upsert.Update ex.onUpdate u).2.isNone
         && (upsert.Insert ex.onInsert (upsert.Update ex.onUpdate u).1).2.isNone)
    ∧ (upsert.Upsert ex meta u).statements
      = (if (upsert.Update ex.onUpdate u).2.isNone then [upsert.updateSQL meta]
         else [upsert.updateSQL meta, upsert.insertSQL meta]) := by
  rcases ex with ⟨onUpd, onIns⟩
  cases onUpd with
  | execErr m =>
    cases onIns with
    | execErr m2 => simp [upsert.Upsert, upsert.Update, upsert.Insert]
    | noRows => simp [upsert.Upsert, upsert.Update, upsert.Insert]
    | row sc2 => cases sc2 <;> simp [upsert.Upsert, upsert.Update, upsert.Insert]
  | noRows =>
    cases onIns with
    | execErr m2 => simp [upsert.Upsert, upsert.Update, upsert.Insert]
    | noRows => simp [upsert.Upsert, upsert.Update, upsert.Insert]
    | row sc2 => cases sc2 <;> simp [upsert.Upsert, upsert.Update, upsert.Insert]
  | row sc =>
    cases sc with
    | ok r => simp [upsert.Upsert, upsert.Update, upsert.Insert]
    | error m =>
      cases onIns with
      | execErr m2 => simp [upsert.Upsert, upsert.Update, upsert.Insert]
      | noRows => simp [upsert.Upsert, upsert.Update, upsert.Insert]
      | row sc2 => cases sc2 <;> simp [upsert.Upsert, upsert.Update, upsert.Insert]

/-- C3: with the transaction opened, UpsertTx performs exactly one commit or
rollback, after the steps; it commits exactly when the returned error is
nil, rolls back exactly when it is non-nil, the returned error is nil
exactly when the update succeeded or found no matching row (the
ErrNoIDReturned case, not an error) and the insert then succeeded, and the
returned error is the update's error when that differs from ErrNoIDReturned
and otherwise the insert's error. -/
theorem upsertTx_commit_iff_no_error {R : Type} (ex : Executor R) (meta : Upserter) (u : R) :
    ((upsert.UpsertTx none ex meta u).txActions = [TxAction.commit]
      ∨ (upsert.UpsertTx none ex meta u).txActions = [TxAction.rollback])
    ∧ ((upsert.UpsertTx none ex meta u).txActions = [TxAction.commit]
      ↔ (upsert.UpsertTx none ex meta u).err = none)
    ∧ ((upsert.UpsertTx none ex meta u).txActions = [TxAction.rollback]
      ↔ (upsert.UpsertTx none ex meta u).err ≠ none)
    ∧ ((upsert.UpsertTx none ex meta u).err = none
      ↔ ((upsert.Update ex.onUpdate u).2 = none
        ∨ ((upsert.Update ex.onUpdate u).2 = some GoError.noIDReturned
          ∧ (upsert.Insert ex.onInsert (upsert.Update ex.onUpdate u).1).2 = none)))
    ∧ (upsert.UpsertTx none ex meta u).err
      = (if (upsert.Update ex.onUpdate u).2 = none then none
         else if (upsert.Update ex.onUpdate u).2 = some GoError.noIDReturned
         then (upsert.Insert ex.onInsert (upsert.Update ex.onUpdate u).1).2
         else (upsert.Update ex.onUpdate u).2) := by
  rcases ex with ⟨onUpd, onIns⟩
  cases onUpd with
  | execErr m =>
    cases onIns with
    | execErr m2 => simp [upsert.UpsertTx, upsert.Update, upsert.Insert]
    | noRows => simp [upsert.UpsertTx, upsert.Update, upsert.Insert]
    | row sc2 => cases sc2 <;> simp [upsert.UpsertTx, upsert.Update, upsert.Insert]
  | noRows =>
    cases onIns with
    | execErr m2 => simp [upsert.UpsertTx, upsert.Update, upsert.Insert]
    | noRows => simp [upsert.UpsertTx, upsert.Update, upsert.Insert]
    | row sc2 => cases sc2 <;> simp [upsert.UpsertTx, upsert.Update, upsert.Insert]
  | row sc =>
    cases sc with
    | ok r => simp [upsert.UpsertTx, upsert.Update, upsert.Insert]
    | error m =>
      cases onIns with
      | execErr m2 => simp [upsert.UpsertTx, upsert.Update, upsert.Insert]
      | noRows => simp [upsert.UpsertTx, upsert.Update, upsert.Insert]
      | row sc2 => cases sc2 <;> simp [upsert.UpsertTx, upsert.Update, upsert.Insert]

/-- C4 counterexample: in the two-call scenario the first call inserts, but
the second call with byte-identical values does send a write statement: it
issues the UPDATE statement (which matches the existing row), and its
outcome is merely the inserted flag being false with a nil error — there is
no NoChange outcome and no short-circuit that skips write traffic. -/
theorem second_upsert_sends_update :
    (upsert.Upsert firstCallEx helloU (0 : Nat)).inserted = true
    ∧ (upsert.Upsert secondCallEx helloU (1 : Nat)).inserted = false
    ∧ (upsert.Upsert secondCallEx helloU (1 : Nat)).err = none
    ∧ (upsert.Upsert secondCallEx helloU (1 : Nat)).statements = [upsert.updateSQL helloU]
    ∧ (upsert.Upsert secondCallEx helloU (1 : Nat)).statements ≠ [] := by
  decide

/-- C4 amended: calling Upsert twice with byte-identical writable values
yields the inserted flag true then false with nil errors (the package's
outcome is a boolean, with no NoChange value), and the second call sends
the UPDATE write statement rather than skipping write traffic. -/
theorem upsert_twice_inserted_then_not {R : Type} (meta : Upserter) (u₁ u₂ r₁ r₂ : R)
    (ins : ExecResult R) :
    (upsert.Upsert ⟨ExecResult.noRows, ExecResult.row (Except.ok r₁)⟩ meta u₁).inserted = true
    ∧ (upsert.Upsert ⟨ExecResult.noRows, ExecResult.row (Except.ok r₁)⟩ meta u₁).err = none
    ∧ (upsert.Upsert ⟨ExecResult.row (Except.ok r₂), ins⟩ meta u₂).inserted = false
    ∧ (upsert.Upsert ⟨ExecResult.row (Except.ok r₂), ins⟩ meta u₂).err = none
    ∧ (upsert.Upsert ⟨ExecResult.row (Except.ok r₂), ins⟩ meta u₂).statements
      = [upsert.updateSQL meta] :=
  ⟨rfl, rfl, rfl, rfl, rfl⟩

/-- C9: Delete returns a nil error exactly when the executor ran the DELETE
without an execution error; the affected-row count is never inspected, so
two executions differing only in that count give identical results, and
deleting with a key that matches no row (count zero) is not an error. -/
theorem delete_ignores_rowcount (n m : Nat) (e : Option String) (meta : Upserter) :
    upsert.Delete ⟨n, e⟩ meta = upsert.Delete ⟨m, e⟩ meta
    ∧ ((upsert.Delete ⟨n, e⟩ meta).2 = none ↔ e = none)
    ∧ (upsert.Delete ⟨n, e⟩ meta).1 = [upsert.deleteSQL meta] := by
  cases e <;> simp [upsert.Delete]
